import Mathlib

/-!
Verification of `facr_pripravky_goal_counter` (Czech FA match scraper and
goal counter).  The Python sources `parse_games.py`, `get_standings.py` and
`get_stats.py` are shallowly embedded below: Python dicts become
insertion-ordered association lists, the SQLite tables become lists of rows,
and the SQL statements of the scripts become list-processing functions.
-/

namespace Facr

/-! ## Python dict model

Python dicts are insertion ordered with unique keys.  We model them as
association lists: assignment `d[k] = v` replaces the value at the first
occurrence of `k`, or appends `(k, v)` at the end when `k` is absent;
lookup reads the first occurrence. -/

/-- Lookup in a Python-dict model: value at the first occurrence of `k`. -/
def alistLookup {κ α : Type} [DecidableEq κ] (l : List (κ × α)) (k : κ) : Option α :=
  (l.find? (fun kv => kv.1 = k)).map (fun kv => kv.2)

/-- Assignment `d[k] = v` on a Python-dict model. -/
def alistSet {κ α : Type} [DecidableEq κ] : List (κ × α) → κ → α → List (κ × α)
  | [], k, v => [(k, v)]
  | (k', v') :: rest, k, v =>
      if k' = k then (k, v) :: rest else (k', v') :: alistSet rest k v

/-- The key list of a Python-dict model. -/
def alistKeys {κ α : Type} (l : List (κ × α)) : List κ :=
  l.map (fun kv => kv.1)

/-- `d[k] += 1` on a Python-dict model of counters.  In the source
(`goal_counts[key] += 1`) the key is always present at this point, having
been initialized from the squad or by the `if key not in squad` branch,
so the no-op branch for an absent key is unreachable there. -/
def dictBump {κ : Type} [DecidableEq κ] (l : List (κ × Nat)) (k : κ) : List (κ × Nat) :=
  match alistLookup l k with
  | some v => alistSet l k (v + 1)
  | none => l

/-! ## `make_id` / `strip_accents` (parse_games.py lines 24-32)

Character-level helpers model the Python string operations on the
character domain exercised in this development:
* `nfkdChar` models `unicodedata.normalize("NFKD", ·)` per character for
  ASCII (fixed points), for the accented Latin letters of Czech names
  (which decompose into a base letter plus a combining mark), and for
  characters such as `'ß'` that have no NFKD decomposition.
* `combining` recognizes the combining diacritical marks block
  U+0300-U+036F produced by those decompositions.
* `pyLower` models `str.lower` (ASCII case mapping; the non-ASCII
  characters used here, e.g. `'ß'`, are fixed points of `str.lower`).
* `pyIsSpace` models `\s` for the whitespace characters used here.
* `pyIsWordChar` models Python's Unicode-aware `\w`: ASCII letters,
  digits and underscore, plus non-ASCII word characters; the table
  `nonAsciiWordChar` lists the non-ASCII word characters appearing in
  this development. -/

/-- NFKD decomposition of one character (see domain note above). -/
def nfkdChar (c : Char) : List Char :=
  if c = 'á' then ['a', '́'] else
  if c = 'é' then ['e', '́'] else
  if c = 'í' then ['i', '́'] else
  if c = 'ó' then ['o', '́'] else
  if c = 'ú' then ['u', '́'] else
  if c = 'ý' then ['y', '́'] else
  if c = 'č' then ['c', '̌'] else
  if c = 'ď' then ['d', '̌'] else
  if c = 'ě' then ['e', '̌'] else
  if c = 'ň' then ['n', '̌'] else
  if c = 'ř' then ['r', '̌'] else
  if c = 'š' then ['s', '̌'] else
  if c = 'ť' then ['t', '̌'] else
  if c = 'ž' then ['z', '̌'] else
  if c = 'ů' then ['u', '̊'] else
  if c = 'Á' then ['A', '́'] else
  if c = 'É' then ['E', '́'] else
  if c = 'Í' then ['I', '́'] else
  if c = 'Ó' then ['O', '́'] else
  if c = 'Ú' then ['U', '́'] else
  if c = 'Ý' then ['Y', '́'] else
  if c = 'Č' then ['C', '̌'] else
  if c = 'Ď' then ['D', '̌'] else
  if c = 'Ě' then ['E', '̌'] else
  if c = 'Ň' then ['N', '̌'] else
  if c = 'Ř' then ['R', '̌'] else
  if c = 'Š' then ['S', '̌'] else
  if c = 'Ť' then ['T', '̌'] else
  if c = 'Ž' then ['Z', '̌'] else
  if c = 'Ů' then ['U', '̊'] else
  [c]

/-- `unicodedata.combining(c) != 0` for the marks produced by `nfkdChar`. -/
def combining (c : Char) : Bool :=
  0x300 ≤ c.val && c.val ≤ 0x36F

/-- `str.lower` per character (see domain note above). -/
def pyLower (c : Char) : Char :=
  c.toLower

/-- Python `\s` membership (see domain note above). -/
def pyIsSpace (c : Char) : Bool :=
  c = ' ' || c = '\t' || c = '\n' || c = '\x0d' || c = '\x0b' || c = '\x0c'

/-- Non-ASCII characters matched by Python's `\w` that occur in this
development.  Python's `\w` without `re.ASCII` matches every Unicode word
character; this table covers the ones our concrete inputs contain. -/
def nonAsciiWordChar (c : Char) : Bool :=
  c = 'ß' || c = 'ł' || c = 'æ' || c = 'ø' || c = 'đ'

/-- Python `\w` membership. -/
def pyIsWordChar (c : Char) : Bool :=
  c = '_' || c.isAlpha || c.isDigit || nonAsciiWordChar c

/-- `strip_accents`: NFKD-normalize, then drop combining marks. -/
def strip_accents (txt : List Char) : List Char :=
  (txt.flatMap nfkdChar).filter (fun c => !combining c)

/-- `str.strip()`: drop leading and trailing whitespace. -/
def pyStrip (cs : List Char) : List Char :=
  ((cs.dropWhile pyIsSpace).reverse.dropWhile pyIsSpace).reverse

/-- `re.sub(r"\s+", "_", ·)`: collapse every run of whitespace into one
underscore.  The flag records whether the previous character was
whitespace (i.e. we are inside a run that already emitted `'_'`). -/
def collapseWsAux : Bool → List Char → List Char
  | _, [] => []
  | prevWs, c :: rest =>
      if pyIsSpace c then
        if prevWs then collapseWsAux true rest
        else '_' :: collapseWsAux true rest
      else c :: collapseWsAux false rest

/-- `re.sub(r"\s+", "_", ·)` on a whole string. -/
def collapseWs (cs : List Char) : List Char :=
  collapseWsAux false cs

/-- `make_id` (parse_games.py lines 29-32): strip accents, lowercase,
strip then collapse whitespace runs to `_`, then keep only `\w` chars. -/
def make_id (txt : String) : String :=
  let t := (strip_accents txt.toList).map pyLower
  let t := collapseWs (pyStrip t)
  String.mk (t.filter pyIsWordChar)

/-! ## Squad extraction (parse_games.py lines 61-72) -/

/-- `re.sub(r"\s*\[.*?\]", "", ·)` (parse_games.py line 70) needs the
trailing-whitespace eraser for the `\s*` part of each match. -/
def dropTrailingWs (cs : List Char) : List Char :=
  (cs.reverse.dropWhile pyIsSpace).reverse

/-- `re.sub(r"\s*\[.*?\]", "", name_cell)`: delete every bracketed
annotation (and the whitespace run just before it).  A match needs a `'['`
with some `']'` after it; the non-greedy `.*?` stops at the first `']'`.
If the first `'['` has no following `']'` then no later one does either,
so scanning stops.  The fuel argument only bounds the recursion depth
(each step strictly shrinks the text, so `cs.length` fuel is enough). -/
def stripAnnFuel : Nat → List Char → List Char
  | 0, cs => cs
  | fuel + 1, cs =>
      let pre := cs.takeWhile (fun c => c ≠ '[')
      let post := cs.dropWhile (fun c => c ≠ '[')
      match post with
      | [] => cs
      | _ :: rest =>
          match rest.dropWhile (fun c => c ≠ ']') with
          | [] => cs
          | _ :: tail => dropTrailingWs pre ++ stripAnnFuel fuel tail

/-- `re.sub(r"\s*\[.*?\]", "", ·)` on a whole character list. -/
def stripAnn (cs : List Char) : List Char :=
  stripAnnFuel cs.length cs

/-- `stripAnn` on strings. -/
def stripAnnStr (s : String) : String :=
  String.mk (stripAnn s.toList)

/-- The squad mapping `{ (player_id, team_id): (player_name, team_name) }`. -/
abbrev Squad := List ((String × String) × (String × String))

/-- The goal-count accumulator `{ (player_id, team_id): int }`. -/
abbrev Counts := List ((String × String) × Nat)

/-- One section of `.Match-statsGrid`: the `h2` team name and, for each
`tbody tr` row, the stripped texts of its `td` cells. -/
structure SquadSection where
  team_name : String
  rows : List (List String)
deriving DecidableEq

/-- Body of the inner squad loop (lines 66-72): rows with at least 3
columns contribute a squad entry keyed by the normalized name (bracketed
annotations dropped) and the section's team id. -/
def buildSquadRow (team_id team_name : String) (sq : Squad) (cols : List String) : Squad :=
  if cols.length ≥ 3 then
    let name := stripAnnStr (cols.getD 2 "")
    alistSet sq (make_id name, team_id) (name, team_name)
  else sq

/-- Body of the outer squad loop (lines 63-72). -/
def buildSquadSection (sq : Squad) (sec : SquadSection) : Squad :=
  sec.rows.foldl (buildSquadRow (make_id sec.team_name) sec.team_name) sq

/-- The full squad mapping built from all sections (lines 62-72). -/
def buildSquad (sections : List SquadSection) : Squad :=
  sections.foldl buildSquadSection []

/-! ## Timeline extraction (parse_games.py lines 74-86) -/

/-- One `.MatchTimeline-item`: the scorer text of its `p` element and the
element's class list. -/
structure TimelineItem where
  name : String
  classes : List String
deriving DecidableEq

/-- The structural side marker checked on line 78. -/
def homeMarker : String := "MatchTimeline-item--home"

/-- The `(pid, team_id)` key of a timeline event (lines 77-81):
`team_name` from the side marker, `team_id` by comparing `team_name`
against `home_name` (ids being `make_id` of the two names). -/
def timelineKey (home_name guest_name : String) (li : TimelineItem) : String × String :=
  let team_name := if li.classes.contains homeMarker then home_name else guest_name
  let team_id := if team_name = home_name then make_id home_name else make_id guest_name
  (make_id li.name, team_id)

/-- Body of the timeline loop (lines 76-86): keys absent from the squad
are added on the fly with a zero counter, then the key's counter is
incremented. -/
def timelineStep (home_name guest_name : String) (st : Squad × Counts)
    (li : TimelineItem) : Squad × Counts :=
  let team_name := if li.classes.contains homeMarker then home_name else guest_name
  let key := timelineKey home_name guest_name li
  let sq := st.1
  let gc := st.2
  if (alistLookup sq key).isSome then (sq, dictBump gc key)
  else (alistSet sq key (li.name, team_name), dictBump (alistSet gc key 0) key)

/-- `goal_counts = {k: 0 for k in squad}` (line 75). -/
def initCounts (sq : Squad) : Counts :=
  sq.map (fun kv => (kv.1, 0))

/-- Lines 75-86 as one function: zero-initialize the accumulator from the
squad, then fold over the timeline. -/
def parse_goals (home_name guest_name : String) (squad0 : Squad)
    (items : List TimelineItem) : Squad × Counts :=
  items.foldl (timelineStep home_name guest_name) (squad0, initCounts squad0)

/-- Sum of the goal counters over the keys of one team. -/
def sumTeam (team_id : String) (gc : Counts) : Nat :=
  ((gc.filter (fun kv => kv.1.2 = team_id)).map (fun kv => kv.2)).sum

/-! ## Venue extraction (parse_games.py line 52) -/

/-- The literal part of the venue regex `Hřiště:\s*([^.]+)`. -/
def venueLabel : List Char := "Hřiště:".toList

/-- Attempt of `\s*([^.]+)` at the text right after one `Hřiště:` label,
with Python's backtracking: the greedy `\s*` gives back whitespace (which
`[^.]` also matches) until `[^.]+` can take at least one character, so
the attempt fails only when the remainder is empty or starts with a
period. -/
def venueGroupAt (r : List Char) : Option (List Char) :=
  match r with
  | [] => none
  | c :: _ =>
      if c = '.' then none
      else
        let ws := r.takeWhile pyIsSpace
        let rest := r.dropWhile pyIsSpace
        match rest with
        | [] => some [ws.getLastD ' ']
        | d :: _ =>
            if d = '.' then some [ws.getLastD ' ']
            else some (rest.takeWhile (fun c => c ≠ '.'))

/-- `re.search(r"Hřiště:\s*([^.]+)", details)`: scan positions left to
right; at each occurrence of the label try the group, else advance one
character. -/
def reSearchVenue : List Char → Option (List Char)
  | [] => none
  | c :: rest =>
      if venueLabel.isPrefixOf (c :: rest) then
        match venueGroupAt ((c :: rest).drop venueLabel.length) with
        | some g => some g
        | none => reSearchVenue rest
      else reSearchVenue rest

/-- Line 52, `venue = (re.search(r"Hřiště:\s*([^.]+)", details) or ["", ""]).group(1).strip()`:
when the search succeeds, the stripped group; when it fails, the
`or`-fallback is the *list* `["", ""]`, and calling `.group(1)` on a list
raises `AttributeError` — modelled as the error branch. -/
def venueStep (details : String) : Except String String :=
  match reSearchVenue details.toList with
  | some g => .ok (String.mk (pyStrip g))
  | none => .error "AttributeError: list object has no attribute group"

/-- Value of a nonempty all-digit character run. -/
def digitsVal (cs : List Char) : Option Nat :=
  if cs = [] then none
  else if cs.all Char.isDigit then
    some (cs.foldl (fun a c => a * 10 + (c.toNat - 48)) 0)
  else none

/-- `int()` on one side of the score: optional surrounding whitespace,
optional sign, one or more digits. -/
def parseIntChars (cs : List Char) : Option Int :=
  match pyStrip cs with
  | '-' :: ds => (digitsVal ds).map (fun n => -(n : Int))
  | ds => (digitsVal ds).map (fun n => (n : Int))

/-- Split a character list on the `':'` delimiter. -/
def splitOnColon : List Char → List (List Char)
  | [] => [[]]
  | c :: rest =>
      if c = ':' then [] :: splitOnColon rest
      else
        match splitOnColon rest with
        | [] => [[c]]
        | h :: t => (c :: h) :: t

/-- Modelled from the spec: the `return` value of `parse_match` — in
particular the derivation of `home_team_goals` / `guest_team_goals` from
the final score text — is missing from the extracted source (the file
breaks off inside the `return` dict on line 89).  Per the spec, the goal
totals are "derived by whatever split the final score string allows (two
integers separated by a fixed delimiter) — if unparsable, goals fields
are left null rather than failing the whole document". -/
def parseFinalScore (s : String) : Option (Int × Int) :=
  match splitOnColon s.toList with
  | [a, b] =>
      match parseIntChars a, parseIntChars b with
      | some x, some y => some (x, y)
      | _, _ => none
  | _ => none

/-! ## The store (parse_games.py DDL, lines 94-135)

The four SQLite tables become lists of rows in physical (rowid) order.
`goal_id` is declared `INTEGER PRIMARY KEY AUTOINCREMENT`: ids are drawn
from a monotone sequence that is never reused even after a `DELETE`, so
the store carries the sequence value `nextGoalId`. -/

/-- A row of `games`. -/
structure GameRow where
  game_id : String
  facr_game_id : String
  date : String
  round : String
  home_team_id : String
  guest_team_id : String
  venue : String
  spectators : Nat
  halftime_score : String
  final_score : String
  home_team_goals : Option Int
  guest_team_goals : Option Int
deriving DecidableEq

/-- A row of `players`. -/
structure PlayerRow where
  player_id : String
  player_name : String
  team_id : String
  team_name : String
deriving DecidableEq

/-- A row of `goals`. -/
structure GoalRow where
  goal_id : Nat
  game_id : String
  facr_game_id : String
  player_id : String
  team_id : String
  goals_scored : Nat
deriving DecidableEq

/-- The parser's structured output consumed by `main`'s write sequence:
`data["game"]`, `data["teams"]`, `data["players"]`, `data["goals"]`. -/
structure MatchRecord where
  game : GameRow
  teams : List (String × String)
  players : List ((String × String) × (String × String))
  goals : List ((String × String) × Nat)
deriving DecidableEq

/-- The durable store: the four tables plus the `goals` AUTOINCREMENT
sequence. -/
structure Store where
  teams : List (String × String)
  players : List PlayerRow
  games : List GameRow
  goals : List GoalRow
  nextGoalId : Nat
deriving DecidableEq

/-- `INSERT OR IGNORE`: a row whose key is already present is dropped;
otherwise it is appended. -/
def insertOrIgnore {α κ : Type} [DecidableEq κ] (key : α → κ) (l : List α) (x : α) : List α :=
  if l.any (fun y => key y = key x) then l else l ++ [x]

/-- `INSERT OR REPLACE`: any row with the same key is deleted and the new
row inserted (with a fresh rowid, hence at the end). -/
def insertOrReplace {α κ : Type} [DecidableEq κ] (key : α → κ) (l : List α) (x : α) : List α :=
  (l.filter (fun y => key y ≠ key x)) ++ [x]

/-- A `record.players` entry as a `players` row (main, lines 183-188). -/
def playerRowOf : ((String × String) × (String × String)) → PlayerRow
  | ((pid, tid), (pname, tname)) => ⟨pid, pname, tid, tname⟩

/-- TEAMS block of `main` (lines 167-169): insert-or-ignore each team,
keyed on `team_id`. -/
def applyTeams (s : Store) (r : MatchRecord) : Store :=
  { s with teams := r.teams.foldl (insertOrIgnore Prod.fst) s.teams }

/-- GAME block of `main` (lines 172-180): insert-or-replace keyed on
`game_id`. -/
def applyGame (s : Store) (r : MatchRecord) : Store :=
  { s with games := insertOrReplace GameRow.game_id s.games r.game }

/-- PLAYERS block of `main` (lines 183-188): insert-or-ignore each player,
keyed on `player_id` (the table's only primary-key column). -/
def applyPlayers (s : Store) (r : MatchRecord) : Store :=
  { s with players :=
      (r.players.map playerRowOf).foldl (insertOrIgnore PlayerRow.player_id) s.players }

/-- `DELETE FROM goals WHERE game_id = ?` (line 191). -/
def deleteGoalsFor (s : Store) (r : MatchRecord) : Store :=
  { s with goals := s.goals.filter (fun g => g.game_id ≠ r.game.game_id) }

/-- One `INSERT INTO goals` (lines 192-197): the omitted `goal_id` is
assigned the next AUTOINCREMENT value. -/
def addGoal (gid facr : String) (s : Store) (kv : (String × String) × Nat) : Store :=
  { s with
      goals := s.goals ++ [⟨s.nextGoalId + 1, gid, facr, kv.1.1, kv.1.2, kv.2⟩],
      nextGoalId := s.nextGoalId + 1 }

/-- GOALS insert loop of `main` (lines 192-197). -/
def insertGoals (s : Store) (r : MatchRecord) : Store :=
  r.goals.foldl (addGoal r.game.game_id r.game.facr_game_id) s

/-- The whole write sequence for one document (main, lines 166-199):
teams, game, players, delete goals, insert goals. -/
def reconcile (s : Store) (r : MatchRecord) : Store :=
  insertGoals (deleteGoalsFor (applyPlayers (applyGame (applyTeams s r) r) r) r) r

/-- The columns of a `goals` row other than the surrogate `goal_id`. -/
def goalObs (g : GoalRow) : String × String × String × String × Nat :=
  (g.game_id, g.facr_game_id, g.player_id, g.team_id, g.goals_scored)

/-- One iteration of `main`'s URL loop: a successfully fetched-and-parsed
document is reconciled and committed; any exception (parse or storage)
triggers `conn.rollback()`, leaving the store exactly as it was. -/
def processDoc (s : Store) (d : Except String MatchRecord) : Store :=
  match d with
  | .ok r => reconcile s r
  | .error _ => s

/-- `main`'s batch loop over the fetch-and-parse outcomes of the listed
documents, in order. -/
def processBatch (docs : List (Except String MatchRecord)) (s : Store) : Store :=
  docs.foldl processDoc s

/-! ## Standings (get_standings.py, `calculate_points`) -/

/-- SQLite `LIKE` with pattern `pref ++ "%"`: case-insensitive (ASCII
case folding, as SQLite's default `LIKE`) prefix match; faithful for
patterns without `%`/`_` metacharacters in `pref` itself. -/
def likeMatch (pref s : String) : Bool :=
  (pref.toList.map Char.toLower).isPrefixOf (s.toList.map Char.toLower)

/-- The `CASE WHEN a > b THEN 3 WHEN a = b THEN 1 ELSE 0 END` expression
with SQL three-valued logic: comparisons against `NULL` are not true, so
a `NULL` opponent score falls through to the `ELSE 0` branch. -/
def casePoints (a : Int) (b : Option Int) : Int :=
  match b with
  | some bv => if a > bv then 3 else if a = bv then 1 else 0
  | none => 0

/-- The home-side subquery's row for one game (`WHERE home_team_goals IS
NOT NULL AND facr_game_id LIKE ?`). -/
def homeRowOf (pref : String) (g : GameRow) : Option (String × Int) :=
  match g.home_team_goals with
  | some h =>
      if likeMatch pref g.facr_game_id then
        some (g.home_team_id, casePoints h g.guest_team_goals)
      else none
  | none => none

/-- The away-side subquery's row for one game (`WHERE guest_team_goals IS
NOT NULL AND facr_game_id LIKE ?`). -/
def guestRowOf (pref : String) (g : GameRow) : Option (String × Int) :=
  match g.guest_team_goals with
  | some h =>
      if likeMatch pref g.facr_game_id then
        some (g.guest_team_id, casePoints h g.home_team_goals)
      else none
  | none => none

/-- The `UNION ALL` of the two subqueries. -/
def unionRows (games : List GameRow) (pref : String) : List (String × Int) :=
  games.filterMap (homeRowOf pref) ++ games.filterMap (guestRowOf pref)

/-- `JOIN teams t ON t.team_id = r.team_id`. -/
def joinTeams (teams : List (String × String)) (rows : List (String × Int)) :
    List ((String × String) × Int) :=
  rows.flatMap (fun r => (teams.filter (fun t => t.1 = r.1)).map (fun t => (t, r.2)))

/-- First occurrences, in order (the distinct group keys of a
`GROUP BY`). -/
def distinctFirst {α : Type} [DecidableEq α] (l : List α) : List α :=
  l.foldl (fun acc x => if acc.contains x then acc else acc ++ [x]) []

/-- `GROUP BY t.team_id, t.team_name` with `SUM(r.points)`. -/
def groupSum (joined : List ((String × String) × Int)) : List (String × String × Int) :=
  (distinctFirst (joined.map (fun x => x.1))).map
    (fun k => (k.1, k.2, ((joined.filter (fun x => x.1 = k)).map (fun x => x.2)).sum))

/-- Stable insertion of one element: `x` goes before the first `y` with
`le x y`. -/
def insertSorted {α : Type} (le : α → α → Bool) (x : α) : List α → List α
  | [] => [x]
  | y :: ys => if le x y then x :: y :: ys else y :: insertSorted le x ys

/-- `ORDER BY` as a stable insertion sort for a boolean total order. -/
def orderBy {α : Type} (le : α → α → Bool) (l : List α) : List α :=
  l.foldr (insertSorted le) []

/-- `ORDER BY points DESC, t.team_name` as a boolean order. -/
def standingsLE (a b : String × String × Int) : Bool :=
  b.2.2 < a.2.2 || (a.2.2 = b.2.2 && a.2.1 ≤ b.2.1)

/-- `calculate_points` (get_standings.py lines 8-54): rows of
`(team_id, team_name, points)`. -/
def calculate_points (teams : List (String × String)) (games : List GameRow)
    (pref : String) : List (String × String × Int) :=
  orderBy standingsLE (groupSum (joinTeams teams (unionRows games pref)))

/-! ## Top scorers (get_stats.py, `get_top_scorers`) -/

/-- One row of the goals-players-teams join in `get_top_scorers`. -/
structure ScorerJoinRow where
  player_id : String
  player_name : String
  team_name : String
  team_id : String
  game_id : String
  goals_scored : Nat
deriving DecidableEq

/-- `get_top_scorers` (get_stats.py lines 8-44): filter `goals` by the
league prefix (and by team when one is given, matching the falsy default
`team_id=False`), inner-join `players` and `teams`, group by
`g.player_id` with `SUM(goals_scored)` and `COUNT(DISTINCT game_id)`,
order by total goals descending, and apply the optional `LIMIT`.  The
ungrouped select columns take their values from the group's first row.
Rows are `(player_name, team_name, team_id, total_goals, total_games)`. -/
def get_top_scorers (players : List PlayerRow) (teams : List (String × String))
    (goals : List GoalRow) (pref : String) (team_id : Option String)
    (limit : Option Nat) : List (String × String × String × Nat × Nat) :=
  let filtered := goals.filter (fun g =>
    likeMatch pref g.facr_game_id &&
      (match team_id with | some t => g.team_id = t | none => true))
  let joined : List ScorerJoinRow := filtered.flatMap (fun g =>
    (players.filter (fun p => p.player_id = g.player_id)).flatMap (fun p =>
      (teams.filter (fun t => t.1 = g.team_id)).map (fun t =>
        ⟨g.player_id, p.player_name, t.2, g.team_id, g.game_id, g.goals_scored⟩)))
  let res := (distinctFirst (joined.map (fun x => x.player_id))).filterMap (fun pid =>
    match joined.filter (fun x => x.player_id = pid) with
    | [] => none
    | r0 :: rest =>
        some (r0.player_name, r0.team_name, r0.team_id,
          ((r0 :: rest).map (fun x => x.goals_scored)).sum,
          (distinctFirst ((r0 :: rest).map (fun x => x.game_id))).length))
  let sorted := orderBy (fun a b => b.2.2.2.1 ≤ a.2.2.2.1) res
  match limit with
  | some n => sorted.take n
  | none => sorted

/-! ## Specification devices used by the lemmas below -/

/-- The `goals` rows produced by the GOALS insert loop when the
AUTOINCREMENT sequence starts at `n`. -/
def goalRowsFrom (gid facr : String) (n : Nat) :
    List ((String × String) × Nat) → List GoalRow
  | [] => []
  | kv :: rest =>
      ⟨n + 1, gid, facr, kv.1.1, kv.1.2, kv.2⟩ :: goalRowsFrom gid facr (n + 1) rest

/-- Number of timeline events attributed to the key `k`. -/
def timelineCount (home_name guest_name : String) (k : String × String)
    (items : List TimelineItem) : Nat :=
  (items.filter (fun li => timelineKey home_name guest_name li = k)).length

/-! ## Concrete scenario data -/

/-- An empty store, as `ensure_schema` leaves a fresh database. -/
def emptyStore : Store := ⟨[], [], [], [], 0⟩

/-- A one-goal `MatchRecord` for the re-ingestion scenarios. -/
def rC1 : MatchRecord :=
  ⟨⟨"alpha_beta_2024-01-01_1", "2024623H1A0101", "2024-01-01", "1. kolo",
    "alpha", "beta", "", 0, "(1:0)", "1:0", some 1, some 0⟩,
   [("alpha", "Alpha"), ("beta", "Beta")],
   [(("jan_novak", "alpha"), ("Jan Novak", "Alpha"))],
   [(("jan_novak", "alpha"), 1)]⟩

/-- Squad of one home player, for the goal-sum scenario. -/
def sqC3 : Squad := buildSquad [⟨"Alpha", [["1", "7", "Jan Novak"]]⟩]

/-- A home-side scoring event by a player missing from the squad. -/
def itemC4 : TimelineItem :=
  ⟨"Karel Svoboda", ["MatchTimeline-item", "MatchTimeline-item--home"]⟩

/-- A details blob with a match number and spectators but no venue label. -/
def detailsC5 : String := "Číslo utkání: 2024623H1A0101 Diváků: 20"

/-- A squad section whose only player name normalizes to the empty
identifier. -/
def secC6 : SquadSection := ⟨"Alpha", [["1", "7", "***"]]⟩

/-- A beat B 3-1. -/
def gameAB : GameRow :=
  ⟨"a_b_2024-01-01_1", "L1A0101", "2024-01-01", "1.", "a", "b", "", 0,
   "(2:0)", "3:1", some 3, some 1⟩

/-- A drew C 1-1. -/
def gameAC : GameRow :=
  ⟨"a_c_2024-01-08_2", "L1A0202", "2024-01-08", "2.", "a", "c", "", 0,
   "(0:0)", "1:1", some 1, some 1⟩

/-- Players X and Y for the top-scorers scenario. -/
def prsC9 : List PlayerRow := [⟨"x", "X", "t", "T"⟩, ⟨"y", "Y", "t", "T"⟩]

/-- Goal rows: X scored 2 in game1 and 1 in game2, Y scored 2 in game1. -/
def glsC9 : List GoalRow :=
  [⟨1, "game1", "L1A0101", "x", "t", 2⟩,
   ⟨2, "game2", "L1A0202", "x", "t", 1⟩,
   ⟨3, "game1", "L1A0101", "y", "t", 2⟩]

/-- A game whose home goal total is recorded but whose guest goal total
is null. -/
def gC10 : GameRow :=
  ⟨"a_b_2024-03-01_5", "L1A0505", "2024-03-01", "5.", "a", "b", "", 0,
   "", "", some 2, none⟩

/-! ## Lemmas: insert-or-ignore -/

theorem insertOrIgnore_of_any {α κ : Type} [DecidableEq κ] (key : α → κ) (l : List α) (x : α)
    (h : l.any (fun y => key y = key x) = true) : insertOrIgnore key l x = l := by
  simp [insertOrIgnore, h]

theorem any_key_insertOrIgnore {α κ : Type} [DecidableEq κ] (key : α → κ) (l : List α) (x : α)
    (k : κ) (h : l.any (fun y => key y = k) = true) :
    (insertOrIgnore key l x).any (fun y => key y = k) = true := by
  unfold insertOrIgnore
  split
  · exact h
  · simp only [List.any_append, h, Bool.true_or]

theorem any_key_insertOrIgnore_self {α κ : Type} [DecidableEq κ] (key : α → κ)
    (l : List α) (x : α) :
    (insertOrIgnore key l x).any (fun y => key y = key x) = true := by
  unfold insertOrIgnore
  split
  · assumption
  · simp

theorem any_key_foldl_insertOrIgnore {α κ : Type} [DecidableEq κ] (key : α → κ) (k : κ) :
    ∀ (xs l : List α), l.any (fun y => key y = k) = true →
      (xs.foldl (insertOrIgnore key) l).any (fun y => key y = k) = true := by
  intro xs
  induction xs with
  | nil => intro l h; exact h
  | cons x xs ih => intro l h; exact ih _ (any_key_insertOrIgnore key l x k h)

theorem mem_foldl_insertOrIgnore {α κ : Type} [DecidableEq κ] (key : α → κ) :
    ∀ (xs l : List α) (x : α), x ∈ xs →
      ((xs.foldl (insertOrIgnore key) l).any (fun y => key y = key x)) = true := by
  intro xs
  induction xs with
  | nil => intro l x h; cases h
  | cons z zs ih =>
      intro l x h
      cases h with
      | head =>
          exact any_key_foldl_insertOrIgnore key (key z) zs _
            (any_key_insertOrIgnore_self key l z)
      | tail _ h => exact ih _ x h

theorem foldl_insertOrIgnore_noop {α κ : Type} [DecidableEq κ] (key : α → κ) :
    ∀ (xs l : List α),
      (∀ x ∈ xs, l.any (fun y => key y = key x) = true) →
      xs.foldl (insertOrIgnore key) l = l := by
  intro xs
  induction xs with
  | nil => intro l _; rfl
  | cons z zs ih =>
      intro l h
      have hz := h z (by simp)
      rw [List.foldl_cons, insertOrIgnore_of_any key l z hz]
      exact ih l (fun x hx => h x (by simp [hx]))

theorem foldl_insertOrIgnore_idem {α κ : Type} [DecidableEq κ] (key : α → κ)
    (xs l : List α) :
    xs.foldl (insertOrIgnore key) (xs.foldl (insertOrIgnore key) l) =
      xs.foldl (insertOrIgnore key) l :=
  foldl_insertOrIgnore_noop key xs _ (fun x hx => mem_foldl_insertOrIgnore key xs l x hx)

/-! ## Lemmas: filters, insert-or-replace, the goals loop -/

theorem filter_filter_self {α : Type} (p : α → Bool) (l : List α) :
    (l.filter p).filter p = l.filter p := by
  induction l with
  | nil => rfl
  | cons x xs ih =>
      by_cases h : p x = true
      · simp [List.filter_cons, h, ih]
      · simp [List.filter_cons, h, ih]

theorem insertOrReplace_idem {α κ : Type} [DecidableEq κ] (key : α → κ) (l : List α) (x : α) :
    insertOrReplace key (insertOrReplace key l x) x = insertOrReplace key l x := by
  unfold insertOrReplace
  rw [List.filter_append, filter_filter_self]
  simp

theorem foldl_addGoal_eq (gid facr : String) :
    ∀ (gs : List ((String × String) × Nat)) (s : Store),
      gs.foldl (addGoal gid facr) s =
        { s with goals := s.goals ++ goalRowsFrom gid facr s.nextGoalId gs,
                 nextGoalId := s.nextGoalId + gs.length } := by
  intro gs
  induction gs with
  | nil => intro s; simp [goalRowsFrom]
  | cons kv rest ih =>
      intro s
      rw [List.foldl_cons, ih]
      simp [addGoal, goalRowsFrom]
      omega

theorem goalRowsFrom_game_id (gid facr : String) :
    ∀ (gs : List ((String × String) × Nat)) (n : Nat) (row : GoalRow),
      row ∈ goalRowsFrom gid facr n gs → row.game_id = gid := by
  intro gs
  induction gs with
  | nil => intro n row h; cases h
  | cons kv rest ih =>
      intro n row h
      cases h with
      | head => rfl
      | tail _ h => exact ih (n + 1) row h

theorem goalRowsFrom_filter_ne (gid facr : String) :
    ∀ (gs : List ((String × String) × Nat)) (n : Nat),
      (goalRowsFrom gid facr n gs).filter (fun g => g.game_id ≠ gid) = [] := by
  intro gs n
  rw [List.filter_eq_nil_iff]
  intro row hrow
  simp [goalRowsFrom_game_id gid facr gs n row hrow]

theorem goalRowsFrom_map_obs (gid facr : String) :
    ∀ (gs : List ((String × String) × Nat)) (n m : Nat),
      (goalRowsFrom gid facr n gs).map goalObs =
        (goalRowsFrom gid facr m gs).map goalObs := by
  intro gs
  induction gs with
  | nil => intro n m; rfl
  | cons kv rest ih => intro n m; simp [goalRowsFrom, goalObs, ih n.succ m.succ]

theorem goalRowsFrom_length (gid facr : String) :
    ∀ (gs : List ((String × String) × Nat)) (n : Nat),
      (goalRowsFrom gid facr n gs).length = gs.length := by
  intro gs
  induction gs with
  | nil => intro n; rfl
  | cons kv rest ih => intro n; simp [goalRowsFrom, ih]

theorem reconcile_def (s : Store) (r : MatchRecord) :
    reconcile s r =
      { teams := r.teams.foldl (insertOrIgnore Prod.fst) s.teams,
        players := (r.players.map playerRowOf).foldl
          (insertOrIgnore PlayerRow.player_id) s.players,
        games := insertOrReplace GameRow.game_id s.games r.game,
        goals := (s.goals.filter (fun g => g.game_id ≠ r.game.game_id)) ++
          goalRowsFrom r.game.game_id r.game.facr_game_id s.nextGoalId r.goals,
        nextGoalId := s.nextGoalId + r.goals.length } := by
  rw [reconcile, insertGoals, foldl_addGoal_eq]
  rfl

/-! ## C1 and C2 -/

/-- C1: the claim as stated is false.  `goal_id` is an AUTOINCREMENT
column, so the delete-then-insert of the goals set on the second
`reconcile` run rewrites the `goals` rows with fresh `goal_id` values:
starting from an empty store, after one run the single goal row has
`goal_id = 1`, after two runs it has `goal_id = 2`. -/
theorem reconcile_twice_changes_goal_rows :
    (reconcile (reconcile emptyStore rC1) rC1).goals ≠ (reconcile emptyStore rC1).goals := by
  decide

/-- C1 (amended): a second `reconcile` with the identical `MatchRecord`
leaves `teams`, `players` and `games` exactly unchanged, and leaves the
`goals` table unchanged in row count and in every column except the
surrogate AUTOINCREMENT `goal_id`. -/
theorem reconcile_idempotent_observable (s : Store) (r : MatchRecord) :
    (reconcile (reconcile s r) r).teams = (reconcile s r).teams ∧
    (reconcile (reconcile s r) r).players = (reconcile s r).players ∧
    (reconcile (reconcile s r) r).games = (reconcile s r).games ∧
    (reconcile (reconcile s r) r).goals.length = (reconcile s r).goals.length ∧
    (reconcile (reconcile s r) r).goals.map goalObs = (reconcile s r).goals.map goalObs := by
  rw [reconcile_def s r, reconcile_def]
  refine ⟨?_, ?_, ?_, ?_, ?_⟩
  · exact foldl_insertOrIgnore_idem _ _ _
  · exact foldl_insertOrIgnore_idem _ _ _
  · exact insertOrReplace_idem _ _ _
  · simp [List.filter_append, filter_filter_self, goalRowsFrom_filter_ne, goalRowsFrom_length]
    exact fun a ha => goalRowsFrom_game_id _ _ _ _ a ha
  · simp only [List.filter_append, filter_filter_self, goalRowsFrom_filter_ne,
      List.append_nil, List.map_append]
    rw [goalRowsFrom_map_obs]

/-- C2: a document whose fetch-and-parse step fails (for instance one
missing the mandatory match id) contributes nothing to the store — the
transaction is rolled back before any write — and the batch continues:
processing the batch with the failing document is exactly processing the
batch without it, for every store state. -/
theorem processBatch_failed_doc_noop (pre post : List (Except String MatchRecord))
    (e : String) (s : Store) :
    processBatch (pre ++ Except.error e :: post) s = processBatch (pre ++ post) s := by
  simp [processBatch, List.foldl_append, processDoc]

/-! ## Lemmas: the Python-dict model -/

theorem alistLookup_cons {κ α : Type} [DecidableEq κ] (k' : κ) (v' : α)
    (rest : List (κ × α)) (k : κ) :
    alistLookup ((k', v') :: rest) k = if k' = k then some v' else alistLookup rest k := by
  by_cases h : k' = k <;> simp [alistLookup, List.find?, h]

theorem alistLookup_alistSet_self {κ α : Type} [DecidableEq κ] :
    ∀ (l : List (κ × α)) (k : κ) (v : α), alistLookup (alistSet l k v) k = some v := by
  intro l
  induction l with
  | nil => intro k v; simp [alistSet, alistLookup, List.find?]
  | cons kv rest ih =>
      intro k v
      obtain ⟨k', v'⟩ := kv
      by_cases h : k' = k
      · simp [alistSet, h, alistLookup_cons]
      · simp [alistSet, h, alistLookup_cons, ih]

theorem alistLookup_alistSet_ne {κ α : Type} [DecidableEq κ] :
    ∀ (l : List (κ × α)) (k : κ) (v : α) (k' : κ), k ≠ k' →
      alistLookup (alistSet l k v) k' = alistLookup l k' := by
  intro l
  induction l with
  | nil => intro k v k' hne; simp [alistSet, alistLookup_cons, hne]
  | cons kv rest ih =>
      intro k v k' hne
      obtain ⟨k'', v''⟩ := kv
      by_cases h : k'' = k
      · subst h; simp [alistSet, alistLookup_cons, hne]
      · simp [alistSet, h, alistLookup_cons, ih _ _ _ hne]

theorem alistSet_alistSet_self {κ α : Type} [DecidableEq κ] :
    ∀ (l : List (κ × α)) (k : κ) (v w : α),
      alistSet (alistSet l k v) k w = alistSet l k w := by
  intro l
  induction l with
  | nil => intro k v w; simp [alistSet]
  | cons kv rest ih =>
      intro k v w
      obtain ⟨k', v'⟩ := kv
      by_cases h : k' = k
      · simp [alistSet, h]
      · simp [alistSet, h, ih]

theorem isSome_alistLookup_alistSet {κ α : Type} [DecidableEq κ]
    (l : List (κ × α)) (k : κ) (v : α) (k' : κ) :
    (alistLookup (alistSet l k v) k').isSome ↔ ((alistLookup l k').isSome ∨ k' = k) := by
  by_cases h : k = k'
  · subst h; simp [alistLookup_alistSet_self]
  · rw [alistLookup_alistSet_ne _ _ _ _ h]
    constructor
    · exact fun hs => Or.inl hs
    · rintro (hs | he)
      · exact hs
      · exact absurd he.symm h

theorem alistKeys_cons {κ α : Type} (kv : κ × α) (rest : List (κ × α)) :
    alistKeys (kv :: rest) = kv.1 :: alistKeys rest := rfl

theorem mem_alistKeys_iff {κ α : Type} [DecidableEq κ] :
    ∀ (l : List (κ × α)) (k : κ), k ∈ alistKeys l ↔ (alistLookup l k).isSome := by
  intro l
  induction l with
  | nil => intro k; simp [alistKeys, alistLookup, List.find?]
  | cons kv rest ih =>
      intro k
      obtain ⟨k', v'⟩ := kv
      by_cases h : k' = k
      · subst h; simp [alistKeys_cons, alistLookup_cons]
      · rw [alistKeys_cons, List.mem_cons, alistLookup_cons, if_neg h, ← ih]
        constructor
        · rintro (he | hm)
          · exact absurd he.symm h
          · exact hm
        · exact fun hm => Or.inr hm

theorem dictBump_eq_of_lookup {κ : Type} [DecidableEq κ] (l : List (κ × Nat)) (k : κ)
    (v : Nat) (h : alistLookup l k = some v) : dictBump l k = alistSet l k (v + 1) := by
  simp [dictBump, h]

theorem dictBump_of_lookup_none {κ : Type} [DecidableEq κ] (l : List (κ × Nat)) (k : κ)
    (h : alistLookup l k = none) : dictBump l k = l := by
  simp [dictBump, h]

theorem alistLookup_dictBump_self {κ : Type} [DecidableEq κ] (l : List (κ × Nat)) (k : κ)
    (v : Nat) (h : alistLookup l k = some v) :
    alistLookup (dictBump l k) k = some (v + 1) := by
  rw [dictBump_eq_of_lookup l k v h]
  exact alistLookup_alistSet_self l k (v + 1)

theorem alistLookup_dictBump_ne {κ : Type} [DecidableEq κ] (l : List (κ × Nat)) (k k' : κ)
    (hne : k ≠ k') : alistLookup (dictBump l k) k' = alistLookup l k' := by
  cases h : alistLookup l k with
  | some v => rw [dictBump_eq_of_lookup l k v h]; exact alistLookup_alistSet_ne l k _ k' hne
  | none => rw [dictBump_of_lookup_none l k h]

theorem isSome_alistLookup_dictBump {κ : Type} [DecidableEq κ] (l : List (κ × Nat))
    (k k' : κ) : (alistLookup (dictBump l k) k').isSome = (alistLookup l k').isSome := by
  by_cases hk : k = k'
  · subst hk
    cases h : alistLookup l k with
    | some v => simp [alistLookup_dictBump_self l k v h, h]
    | none => simp [dictBump_of_lookup_none l k h, h]
  · rw [alistLookup_dictBump_ne l k k' hk]

theorem dictBump_alistSet_zero {κ : Type} [DecidableEq κ] (l : List (κ × Nat)) (k : κ) :
    dictBump (alistSet l k 0) k = alistSet l k 1 := by
  rw [dictBump_eq_of_lookup _ k 0 (alistLookup_alistSet_self l k 0),
    alistSet_alistSet_self]

theorem alistLookup_initCounts (sq : Squad) (k : String × String) :
    alistLookup (initCounts sq) k = (alistLookup sq k).map (fun _ => 0) := by
  induction sq with
  | nil => rfl
  | cons kv rest ih =>
      obtain ⟨k', v'⟩ := kv
      by_cases h : k' = k
      · simp [initCounts, alistLookup_cons, h]
      · simpa [initCounts, alistLookup_cons, h] using ih

/-! ## Lemmas: the timeline fold -/

theorem isSome_alistLookup_alistSet_bool {κ α : Type} [DecidableEq κ]
    (l : List (κ × α)) (k : κ) (v : α) (k' : κ) :
    (alistLookup (alistSet l k v) k').isSome
      = ((alistLookup l k').isSome || decide (k' = k)) := by
  by_cases h : k' = k
  · subst h
    simp [alistLookup_alistSet_self]
  · rw [alistLookup_alistSet_ne l k v k' (fun he => h he.symm)]
    simp [h]

theorem timelineStep_present (hn gn : String) (sq : Squad) (gc : Counts)
    (li : TimelineItem)
    (h : (alistLookup sq (timelineKey hn gn li)).isSome = true) :
    timelineStep hn gn (sq, gc) li = (sq, dictBump gc (timelineKey hn gn li)) := by
  simp [timelineStep, h]

theorem timelineStep_absent (hn gn : String) (sq : Squad) (gc : Counts)
    (li : TimelineItem)
    (h : (alistLookup sq (timelineKey hn gn li)).isSome = false) :
    timelineStep hn gn (sq, gc) li =
      (alistSet sq (timelineKey hn gn li)
        (li.name, if li.classes.contains homeMarker then hn else gn),
       alistSet gc (timelineKey hn gn li) 1) := by
  simp [timelineStep, h, dictBump_alistSet_zero]

theorem timelineCount_cons_self (hn gn : String) (li : TimelineItem)
    (rest : List TimelineItem) (k : String × String) (h : timelineKey hn gn li = k) :
    timelineCount hn gn k (li :: rest) = timelineCount hn gn k rest + 1 := by
  simp [timelineCount, List.filter_cons, h]

theorem timelineCount_cons_ne (hn gn : String) (li : TimelineItem)
    (rest : List TimelineItem) (k : String × String) (h : timelineKey hn gn li ≠ k) :
    timelineCount hn gn k (li :: rest) = timelineCount hn gn k rest := by
  simp [timelineCount, List.filter_cons, h]

theorem foldl_timelineStep_lookup_some (hn gn : String) :
    ∀ (items : List TimelineItem) (sq : Squad) (gc : Counts),
      (∀ k2, (alistLookup sq k2).isSome = (alistLookup gc k2).isSome) →
      ∀ (k : String × String) (v : Nat), alistLookup gc k = some v →
      alistLookup (items.foldl (timelineStep hn gn) (sq, gc)).2 k =
        some (v + timelineCount hn gn k items) := by
  intro items
  induction items with
  | nil => intro sq gc inv k v h; simp [timelineCount, h]
  | cons li rest ih =>
      intro sq gc inv k v h
      rw [List.foldl_cons]
      by_cases hmem : (alistLookup sq (timelineKey hn gn li)).isSome = true
      · rw [timelineStep_present hn gn sq gc li hmem]
        have inv' : ∀ k2, (alistLookup sq k2).isSome
            = (alistLookup (dictBump gc (timelineKey hn gn li)) k2).isSome := by
          intro k2; rw [isSome_alistLookup_dictBump]; exact inv k2
        by_cases hk : timelineKey hn gn li = k
        · subst hk
          rw [ih sq _ inv' _ (v + 1) (alistLookup_dictBump_self gc _ v h)]
          rw [timelineCount_cons_self hn gn li rest _ rfl]
          congr 1
          omega
        · rw [ih sq _ inv' k v (by rw [alistLookup_dictBump_ne gc _ k hk]; exact h)]
          rw [timelineCount_cons_ne hn gn li rest k hk]
      · have hmem' : (alistLookup sq (timelineKey hn gn li)).isSome = false := by
          simpa using hmem
        rw [timelineStep_absent hn gn sq gc li hmem']
        have hgce : (alistLookup gc (timelineKey hn gn li)).isSome = false := by
          rw [← inv]; exact hmem'
        have hk : timelineKey hn gn li ≠ k := by
          intro he; rw [he, h] at hgce; cases hgce
        have inv' : ∀ k2,
            (alistLookup (alistSet sq (timelineKey hn gn li)
              (li.name, if li.classes.contains homeMarker then hn else gn)) k2).isSome
            = (alistLookup (alistSet gc (timelineKey hn gn li) 1) k2).isSome := by
          intro k2
          rw [isSome_alistLookup_alistSet_bool, isSome_alistLookup_alistSet_bool, inv k2]
        rw [ih _ _ inv' k v (by rw [alistLookup_alistSet_ne gc _ 1 k hk]; exact h)]
        rw [timelineCount_cons_ne hn gn li rest k hk]

theorem foldl_timelineStep_lookup_new (hn gn : String) :
    ∀ (items : List TimelineItem) (sq : Squad) (gc : Counts),
      (∀ k2, (alistLookup sq k2).isSome = (alistLookup gc k2).isSome) →
      ∀ (k : String × String), alistLookup gc k = none →
      k ∈ items.map (timelineKey hn gn) →
      alistLookup (items.foldl (timelineStep hn gn) (sq, gc)).2 k =
        some (timelineCount hn gn k items) := by
  intro items
  induction items with
  | nil => intro sq gc inv k hnone hmem; cases hmem
  | cons li rest ih =>
      intro sq gc inv k hnone hmem
      rw [List.foldl_cons]
      by_cases hk : timelineKey hn gn li = k
      · have hsq : (alistLookup sq (timelineKey hn gn li)).isSome = false := by
          rw [hk, inv k, hnone]; rfl
        rw [timelineStep_absent hn gn sq gc li hsq]
        have inv' : ∀ k2,
            (alistLookup (alistSet sq (timelineKey hn gn li)
              (li.name, if li.classes.contains homeMarker then hn else gn)) k2).isSome
            = (alistLookup (alistSet gc (timelineKey hn gn li) 1) k2).isSome := by
          intro k2
          rw [isSome_alistLookup_alistSet_bool, isSome_alistLookup_alistSet_bool, inv k2]
        rw [foldl_timelineStep_lookup_some hn gn rest _ _ inv' k 1
          (by rw [hk, alistLookup_alistSet_self])]
        rw [timelineCount_cons_self hn gn li rest k hk]
        congr 1
        omega
      · have hmem' : k ∈ rest.map (timelineKey hn gn) := by
          rw [List.map_cons] at hmem
          rcases List.mem_cons.mp hmem with he | hm
          · exact absurd he.symm hk
          · exact hm
        by_cases hsq : (alistLookup sq (timelineKey hn gn li)).isSome = true
        · rw [timelineStep_present hn gn sq gc li hsq]
          have inv' : ∀ k2, (alistLookup sq k2).isSome
              = (alistLookup (dictBump gc (timelineKey hn gn li)) k2).isSome := by
            intro k2; rw [isSome_alistLookup_dictBump]; exact inv k2
          rw [timelineCount_cons_ne hn gn li rest k hk]
          exact ih _ _ inv' k
            (by rw [alistLookup_dictBump_ne gc _ k hk]; exact hnone) hmem'
        · have hsq' : (alistLookup sq (timelineKey hn gn li)).isSome = false := by
            simpa using hsq
          rw [timelineStep_absent hn gn sq gc li hsq']
          have inv' : ∀ k2,
              (alistLookup (alistSet sq (timelineKey hn gn li)
                (li.name, if li.classes.contains homeMarker then hn else gn)) k2).isSome
              = (alistLookup (alistSet gc (timelineKey hn gn li) 1) k2).isSome := by
            intro k2
            rw [isSome_alistLookup_alistSet_bool, isSome_alistLookup_alistSet_bool, inv k2]
          rw [timelineCount_cons_ne hn gn li rest k hk]
          exact ih _ _ inv' k
            (by rw [alistLookup_alistSet_ne gc _ 1 k hk]; exact hnone) hmem'

theorem foldl_timelineStep_inv (hn gn : String) :
    ∀ (items : List TimelineItem) (sq : Squad) (gc : Counts),
      (∀ k2, (alistLookup sq k2).isSome = (alistLookup gc k2).isSome) →
      ∀ k2, (alistLookup (items.foldl (timelineStep hn gn) (sq, gc)).1 k2).isSome
          = (alistLookup (items.foldl (timelineStep hn gn) (sq, gc)).2 k2).isSome := by
  intro items
  induction items with
  | nil => intro sq gc inv k2; exact inv k2
  | cons li rest ih =>
      intro sq gc inv k2
      rw [List.foldl_cons]
      by_cases hsq : (alistLookup sq (timelineKey hn gn li)).isSome = true
      · rw [timelineStep_present hn gn sq gc li hsq]
        exact ih _ _ (fun k3 => by rw [isSome_alistLookup_dictBump]; exact inv k3) k2
      · have hsq' : (alistLookup sq (timelineKey hn gn li)).isSome = false := by
          simpa using hsq
        rw [timelineStep_absent hn gn sq gc li hsq']
        exact ih _ _ (fun k3 => by
          rw [isSome_alistLookup_alistSet_bool, isSome_alistLookup_alistSet_bool, inv k3]) k2

/-! ## C4 -/

/-- C4: for every parsed document, every key of the squad mapping and
every timeline scorer's key appears in the output goals accumulator with
value equal to the number of timeline events attributed to that key (in
particular `0` for squad players absent from the timeline), and the key
also appears in the final players (squad) mapping — on-the-fly timeline
scorers included. -/
theorem parse_goals_complete (hn gn : String) (squad0 : Squad)
    (items : List TimelineItem) (k : String × String)
    (hk : k ∈ alistKeys squad0 ∨ k ∈ items.map (timelineKey hn gn)) :
    alistLookup (parse_goals hn gn squad0 items).2 k
        = some (timelineCount hn gn k items) ∧
    (alistLookup (parse_goals hn gn squad0 items).1 k).isSome = true := by
  have inv0 : ∀ k2, (alistLookup squad0 k2).isSome
      = (alistLookup (initCounts squad0) k2).isSome := by
    intro k2
    rw [alistLookup_initCounts]
    cases alistLookup squad0 k2 <;> rfl
  have hgoal : alistLookup (parse_goals hn gn squad0 items).2 k
      = some (timelineCount hn gn k items) := by
    unfold parse_goals
    by_cases hin : (alistLookup squad0 k).isSome = true
    · obtain ⟨v, hv⟩ := Option.isSome_iff_exists.mp hin
      have h0 : alistLookup (initCounts squad0) k = some 0 := by
        rw [alistLookup_initCounts, hv]; rfl
      have hres := foldl_timelineStep_lookup_some hn gn items squad0 _ inv0 k 0 h0
      simpa using hres
    · have hnone : alistLookup (initCounts squad0) k = none := by
        rw [alistLookup_initCounts]
        cases hsq : alistLookup squad0 k with
        | some v => rw [hsq] at hin; cases hin rfl
        | none => rfl
      have hmem : k ∈ items.map (timelineKey hn gn) := by
        cases hk with
        | inl hmemsq => exact absurd ((mem_alistKeys_iff squad0 k).mp hmemsq) hin
        | inr hm => exact hm
      exact foldl_timelineStep_lookup_new hn gn items squad0 _ inv0 k hnone hmem
  refine ⟨hgoal, ?_⟩
  have hfin := foldl_timelineStep_inv hn gn items squad0 (initCounts squad0) inv0 k
  unfold parse_goals at hgoal ⊢
  rw [hfin, hgoal]
  rfl

/-- Concrete instantiation of the roster-completeness theorem: a home
scoring event by a player not on the squad list adds the player to both
maps with a count of 1. -/
theorem parse_goals_complete_witness :
    ((make_id "Karel Svoboda", make_id "Alpha") ∈ alistKeys sqC3 ∨
      (make_id "Karel Svoboda", make_id "Alpha")
        ∈ [itemC4].map (timelineKey "Alpha" "Beta")) ∧
    (alistLookup (parse_goals "Alpha" "Beta" sqC3 [itemC4]).2
        (make_id "Karel Svoboda", make_id "Alpha")
        = some (timelineCount "Alpha" "Beta"
            (make_id "Karel Svoboda", make_id "Alpha") [itemC4]) ∧
      (alistLookup (parse_goals "Alpha" "Beta" sqC3 [itemC4]).1
        (make_id "Karel Svoboda", make_id "Alpha")).isSome = true) :=
  ⟨Or.inr (List.mem_map.mpr ⟨itemC4, List.mem_singleton.mpr rfl, by decide⟩),
   parse_goals_complete "Alpha" "Beta" sqC3 [itemC4] _
     (Or.inr (List.mem_map.mpr ⟨itemC4, List.mem_singleton.mpr rfl, by decide⟩))⟩

/-! ## Lemmas: team sums of the accumulator -/

theorem sumTeam_nil (tid : String) : sumTeam tid [] = 0 := rfl

theorem sumTeam_cons (tid : String) (kv : (String × String) × Nat) (rest : Counts) :
    sumTeam tid (kv :: rest) = (if kv.1.2 = tid then kv.2 else 0) + sumTeam tid rest := by
  by_cases h : kv.1.2 = tid <;> simp [sumTeam, List.filter_cons, h]

theorem sumTeam_alistSet_of_none (tid : String) (v : Nat) :
    ∀ (gc : Counts) (k : String × String), alistLookup gc k = none →
      sumTeam tid (alistSet gc k v) = sumTeam tid gc + (if k.2 = tid then v else 0) := by
  intro gc
  induction gc with
  | nil =>
      intro k _
      by_cases hk : k.2 = tid <;> simp [alistSet, sumTeam_cons, sumTeam_nil, hk]
  | cons kv rest ih =>
      intro k h
      obtain ⟨k', v'⟩ := kv
      rw [alistLookup_cons] at h
      by_cases hk : k' = k
      · rw [if_pos hk] at h; cases h
      · rw [if_neg hk] at h
        simp only [alistSet, if_neg hk, sumTeam_cons, ih k h]
        omega

theorem sumTeam_dictBump (tid : String) :
    ∀ (gc : Counts) (k : String × String) (v : Nat), alistLookup gc k = some v →
      sumTeam tid (dictBump gc k) = sumTeam tid gc + (if k.2 = tid then 1 else 0) := by
  intro gc
  induction gc with
  | nil => intro k v h; cases h
  | cons kv rest ih =>
      intro k v h
      obtain ⟨k', v'⟩ := kv
      rw [alistLookup_cons] at h
      by_cases hk : k' = k
      · rw [if_pos hk] at h
        subst hk
        rw [dictBump_eq_of_lookup _ _ v' (by rw [alistLookup_cons, if_pos rfl])]
        have hset : alistSet ((k', v') :: rest) k' (v' + 1) = (k', v' + 1) :: rest := by
          simp [alistSet]
        rw [hset, sumTeam_cons, sumTeam_cons]
        by_cases hk2 : k'.2 = tid
        · rw [if_pos hk2, if_pos hk2, if_pos hk2]
          omega
        · rw [if_neg hk2, if_neg hk2, if_neg hk2]
          omega
      · rw [if_neg hk] at h
        have hd : dictBump ((k', v') :: rest) k = (k', v') :: dictBump rest k := by
          rw [dictBump_eq_of_lookup _ _ v (by rw [alistLookup_cons, if_neg hk]; exact h)]
          rw [dictBump_eq_of_lookup rest k v h]
          simp [alistSet, hk]
        rw [hd, sumTeam_cons, sumTeam_cons, ih k v h]
        omega

theorem sumTeam_initCounts (tid : String) (sq : Squad) :
    sumTeam tid (initCounts sq) = 0 := by
  induction sq with
  | nil => rfl
  | cons kv rest ih =>
      rw [show initCounts (kv :: rest) = (kv.1, 0) :: initCounts rest from rfl,
        sumTeam_cons, ih]
      simp

theorem foldl_timelineStep_sumTeam (hn gn tid : String) :
    ∀ (items : List TimelineItem) (sq : Squad) (gc : Counts),
      (∀ k2, (alistLookup sq k2).isSome = (alistLookup gc k2).isSome) →
      sumTeam tid (items.foldl (timelineStep hn gn) (sq, gc)).2 =
        sumTeam tid gc +
          (items.filter (fun li => (timelineKey hn gn li).2 = tid)).length := by
  intro items
  induction items with
  | nil => intro sq gc _; simp
  | cons li rest ih =>
      intro sq gc inv
      rw [List.foldl_cons]
      by_cases hsq : (alistLookup sq (timelineKey hn gn li)).isSome = true
      · rw [timelineStep_present hn gn sq gc li hsq]
        have hgc : (alistLookup gc (timelineKey hn gn li)).isSome = true := by
          rw [← inv]; exact hsq
        obtain ⟨v, hv⟩ := Option.isSome_iff_exists.mp hgc
        rw [ih _ _ (fun k3 => by rw [isSome_alistLookup_dictBump]; exact inv k3)]
        rw [sumTeam_dictBump tid gc _ v hv]
        rw [List.filter_cons]
        by_cases ht : (timelineKey hn gn li).2 = tid <;> simp [ht] <;> omega
      · have hsq' : (alistLookup sq (timelineKey hn gn li)).isSome = false := by
          simpa using hsq
        rw [timelineStep_absent hn gn sq gc li hsq']
        have hgcnone : alistLookup gc (timelineKey hn gn li) = none := by
          cases h2 : alistLookup gc (timelineKey hn gn li) with
          | some v =>
              have hi := inv (timelineKey hn gn li)
              rw [hsq', h2] at hi
              cases hi
          | none => rfl
        rw [ih _ _ (fun k3 => by
          rw [isSome_alistLookup_alistSet_bool, isSome_alistLookup_alistSet_bool, inv k3])]
        rw [sumTeam_alistSet_of_none tid 1 gc _ hgcnone]
        rw [List.filter_cons]
        by_cases ht : (timelineKey hn gn li).2 = tid <;> simp [ht] <;> omega

/-! ## C3 -/

theorem timelineKey_snd_of_contains (hn gn : String) (li : TimelineItem)
    (hc : li.classes.contains homeMarker = true) :
    (timelineKey hn gn li).2 = make_id hn := by
  have hmem : homeMarker ∈ li.classes := by simpa using hc
  simp [timelineKey, hc]
  intro hnm
  exact absurd hmem hnm

theorem timelineKey_snd_of_not_contains (hn gn : String) (li : TimelineItem)
    (hc : li.classes.contains homeMarker = false) (hns : gn ≠ hn) :
    (timelineKey hn gn li).2 = make_id gn := by
  have hnm : homeMarker ∉ li.classes := by simpa using hc
  simp [timelineKey, hc, hns]
  intro hmem
  exact absurd hmem hnm

/-- C3: the claim as stated is false.  The goals accumulator is computed
from the timeline alone, independently of the final-score text: a
document with the parsable final score `"1:0"`, a one-player home squad
and an empty timeline is accepted, yet the home team's goal sum is `0`,
not the `home_team_goals` value `1`. -/
theorem goal_sum_mismatch :
    parseFinalScore "1:0" = some (1, 0) ∧
    sumTeam (make_id "Alpha") (parse_goals "Alpha" "Beta" sqC3 []).2 = 0 ∧
    sumTeam (make_id "Alpha") (parse_goals "Alpha" "Beta" sqC3 []).2 ≠ 1 := by
  refine ⟨by decide, by decide, by decide⟩

/-- C3 (amended): for every parsed document, the sum of the goals
accumulator over the keys of the home team equals the number of timeline
events carrying the home-side marker, and the guest-team sum equals the
number of the remaining timeline events (provided the two team names
normalize to distinct ids).  These sums equal the parsed
`home_team_goals`/`guest_team_goals` only when the document's timeline
agrees with its final score; the parser does not enforce that
agreement. -/
theorem parse_goals_sum (hn gn : String) (squad0 : Squad)
    (items : List TimelineItem) (hne : make_id hn ≠ make_id gn) :
    sumTeam (make_id hn) (parse_goals hn gn squad0 items).2 =
      (items.filter (fun li => li.classes.contains homeMarker)).length ∧
    sumTeam (make_id gn) (parse_goals hn gn squad0 items).2 =
      (items.filter (fun li => !li.classes.contains homeMarker)).length := by
  have inv0 : ∀ k2, (alistLookup squad0 k2).isSome
      = (alistLookup (initCounts squad0) k2).isSome := by
    intro k2
    rw [alistLookup_initCounts]
    cases alistLookup squad0 k2 <;> rfl
  have hns : gn ≠ hn := fun h => hne (by rw [h])
  unfold parse_goals
  constructor
  · rw [foldl_timelineStep_sumTeam hn gn (make_id hn) items squad0 _ inv0,
      sumTeam_initCounts, Nat.zero_add]
    congr 1
    apply List.filter_congr
    intro li _
    by_cases hc : li.classes.contains homeMarker = true
    · rw [hc, timelineKey_snd_of_contains hn gn li hc]
      simp
    · have hcf : li.classes.contains homeMarker = false := by simpa using hc
      rw [hcf, timelineKey_snd_of_not_contains hn gn li hcf hns]
      simp [Ne.symm hne]
  · rw [foldl_timelineStep_sumTeam hn gn (make_id gn) items squad0 _ inv0,
      sumTeam_initCounts, Nat.zero_add]
    congr 1
    apply List.filter_congr
    intro li _
    by_cases hc : li.classes.contains homeMarker = true
    · rw [hc, timelineKey_snd_of_contains hn gn li hc]
      simp [hne]
    · have hcf : li.classes.contains homeMarker = false := by simpa using hc
      rw [hcf, timelineKey_snd_of_not_contains hn gn li hcf hns]
      simp

/-- Concrete instantiation of the amended goal-sum theorem: one home
timeline event gives a home sum of 1 and a guest sum of 0. -/
theorem parse_goals_sum_witness :
    make_id "Alpha" ≠ make_id "Beta" ∧
    (sumTeam (make_id "Alpha") (parse_goals "Alpha" "Beta" sqC3 [itemC4]).2 =
        ([itemC4].filter (fun li => li.classes.contains homeMarker)).length ∧
      sumTeam (make_id "Beta") (parse_goals "Alpha" "Beta" sqC3 [itemC4]).2 =
        ([itemC4].filter (fun li => !li.classes.contains homeMarker)).length) :=
  ⟨by decide, parse_goals_sum "Alpha" "Beta" sqC3 [itemC4] (by decide)⟩

/-! ## C5 -/

/-- C5: the claim is right about the intent but the code is wrong.  When
the details block carries no `Hřiště:` label, `re.search` returns `None`,
the `or`-fallback evaluates to the *list* `["", ""]`, and `.group(1)` on
a list raises `AttributeError` — `parse_match` fails for the whole
document instead of degrading to the empty-string venue the fallback was
evidently meant to provide. -/
theorem venue_absent_errors :
    venueStep detailsC5
      = Except.error "AttributeError: list object has no attribute group" := by
  rfl

/-! ## C6 -/

/-- C6: the claim as stated is false.  A squad row whose player name
normalizes to the empty identifier is not rejected: `make_id "***" = ""`
and the squad mapping ends up keyed by the empty string, with no error
raised anywhere in `parse_match`. -/
theorem empty_id_used_as_key :
    make_id "***" = "" ∧
    alistLookup (buildSquad [secC6]) ("", make_id "Alpha") = some ("***", "Alpha") := by
  exact ⟨by decide, by decide⟩

theorem isSome_buildSquadRow_mono (tid tname : String) (sq : Squad)
    (cols : List String) (k : String × String)
    (h : (alistLookup sq k).isSome = true) :
    (alistLookup (buildSquadRow tid tname sq cols) k).isSome = true := by
  unfold buildSquadRow
  split
  · rw [isSome_alistLookup_alistSet_bool, h, Bool.true_or]
  · exact h

theorem isSome_foldl_buildSquadRow_mono (tid tname : String) :
    ∀ (rows : List (List String)) (sq : Squad) (k : String × String),
      (alistLookup sq k).isSome = true →
      (alistLookup (rows.foldl (buildSquadRow tid tname) sq) k).isSome = true := by
  intro rows
  induction rows with
  | nil => intro sq k h; exact h
  | cons r rs ih =>
      intro sq k h
      exact ih _ k (isSome_buildSquadRow_mono tid tname sq r k h)

theorem isSome_foldl_buildSquadRow_of_mem (tid tname : String) :
    ∀ (rows : List (List String)) (sq : Squad) (cols : List String),
      cols ∈ rows → 3 ≤ cols.length →
      (alistLookup (rows.foldl (buildSquadRow tid tname) sq)
        (make_id (stripAnnStr (cols.getD 2 "")), tid)).isSome = true := by
  intro rows
  induction rows with
  | nil => intro sq cols h _; cases h
  | cons r rs ih =>
      intro sq cols h hlen
      cases h with
      | head =>
          apply isSome_foldl_buildSquadRow_mono tid tname rs
          unfold buildSquadRow
          rw [if_pos hlen, isSome_alistLookup_alistSet_bool]
          simp
      | tail _ h => exact ih _ cols h hlen

theorem isSome_foldl_buildSquadSection_mono :
    ∀ (sections : List SquadSection) (sq : Squad) (k : String × String),
      (alistLookup sq k).isSome = true →
      (alistLookup (sections.foldl buildSquadSection sq) k).isSome = true := by
  intro sections
  induction sections with
  | nil => intro sq k h; exact h
  | cons s ss ih =>
      intro sq k h
      exact ih _ k (isSome_foldl_buildSquadRow_mono _ _ s.rows sq k h)

theorem buildSquad_key_isSome_aux (sec : SquadSection) (cols : List String)
    (hrow : cols ∈ sec.rows) (hlen : 3 ≤ cols.length) :
    ∀ (sections : List SquadSection) (sq : Squad), sec ∈ sections →
      (alistLookup (sections.foldl buildSquadSection sq)
        (make_id (stripAnnStr (cols.getD 2 "")), make_id sec.team_name)).isSome = true := by
  intro sections
  induction sections with
  | nil => intro sq h; cases h
  | cons s ss ih =>
      intro sq h
      cases h with
      | head =>
          apply isSome_foldl_buildSquadSection_mono ss
          exact isSome_foldl_buildSquadRow_of_mem _ _ sec.rows sq cols hrow hlen
      | tail _ h => exact ih _ h

/-- C6 (amended): a squad row's `(make_id name, team_id)` key is entered
into the squad mapping unconditionally — also when the name normalizes to
the empty identifier; no error condition exists and no `ParseError` is
raised for degenerate names. -/
theorem buildSquad_uses_normalized_key (sections : List SquadSection)
    (sec : SquadSection) (cols : List String) (hsec : sec ∈ sections)
    (hrow : cols ∈ sec.rows) (hlen : 3 ≤ cols.length) :
    (alistLookup (buildSquad sections)
      (make_id (stripAnnStr (cols.getD 2 "")), make_id sec.team_name)).isSome = true := by
  unfold buildSquad
  exact buildSquad_key_isSome_aux sec cols hrow hlen sections [] hsec

/-- Concrete instantiation of the empty-identifier theorem at the
`"***"` squad row. -/
theorem buildSquad_uses_normalized_key_witness :
    (secC6 ∈ [secC6] ∧ ["1", "7", "***"] ∈ secC6.rows ∧
      3 ≤ (["1", "7", "***"] : List String).length) ∧
    (alistLookup (buildSquad [secC6])
      (make_id (stripAnnStr ((["1", "7", "***"] : List String).getD 2 "")),
       make_id secC6.team_name)).isSome = true :=
  ⟨⟨List.mem_singleton.mpr rfl, List.mem_singleton.mpr rfl, by decide⟩,
   buildSquad_uses_normalized_key [secC6] secC6 ["1", "7", "***"]
     (List.mem_singleton.mpr rfl) (List.mem_singleton.mpr rfl) (by decide)⟩

/-! ## C7 -/

/-- C7: the claim is right about the intent (the code's own comment says
`keep a-z0-9_`) but the code is wrong: Python's `\w` without `re.ASCII`
matches every Unicode word character, so a name containing `ß` — which
has no NFKD decomposition — normalizes to an identifier that still
contains the non-ASCII letter `ß`. -/
theorem make_id_keeps_non_ascii :
    make_id "Groß" = "groß" ∧
    ("groß".toList.all (fun c => decide (c.toNat < 128))) = false := by
  exact ⟨by decide, by decide⟩

/-! ## C8, C9, C10 -/

/-- C8: in the concrete scenario — A beat B 3-1 and A drew C 1-1, both
games matching the league prefix — `calculate_points` awards 3/1/0 points
per win/draw/loss over both sides of each game and returns the teams
ordered by points descending with team name ascending as tie-break:
exactly A with 4, then C with 1, then B with 0. -/
theorem standings_scenario :
    calculate_points [("a", "A"), ("b", "B"), ("c", "C")] [gameAB, gameAC] "L1" =
      [("a", "A", 4), ("c", "C", 1), ("b", "B", 0)] := by
  decide

/-- C9: in the concrete scenario — X scored 2 goals in game1 and 1 in
game2, Y scored 2 goals in game1, all matching the league prefix —
`get_top_scorers` with no team filter and no limit returns one row per
player with the summed goals and the count of distinct games, ordered by
total goals descending: X (3 goals, 2 games) before Y (2 goals, 1
game). -/
theorem top_scorers_scenario :
    get_top_scorers prsC9 [("t", "T")] glsC9 "L1" none none =
      [("X", "T", "t", 3, 2), ("Y", "T", "t", 2, 1)] := by
  decide

/-- C10: for a prefix-matching game in which exactly one of the two goal
totals is null, the side whose total is recorded contributes a 0-point
row to the `UNION ALL` (the `CASE` comparisons against the NULL opponent
total are not true, falling through to `ELSE 0`), while the side whose
total is null is filtered out by its `IS NOT NULL` guard and contributes
no row from that game. -/
theorem standings_single_null (g : GameRow) (pref : String) (h : Int) :
    (g.home_team_goals = some h → g.guest_team_goals = none →
      likeMatch pref g.facr_game_id = true →
      homeRowOf pref g = some (g.home_team_id, 0) ∧ guestRowOf pref g = none) ∧
    (g.home_team_goals = none → g.guest_team_goals = some h →
      likeMatch pref g.facr_game_id = true →
      homeRowOf pref g = none ∧ guestRowOf pref g = some (g.guest_team_id, 0)) := by
  constructor
  · intro hh hg hl
    constructor
    · simp [homeRowOf, hh, hg, hl, casePoints]
    · simp [guestRowOf, hg]
  · intro hh hg hl
    constructor
    · simp [homeRowOf, hh]
    · simp [guestRowOf, hh, hg, hl, casePoints]

/-- Concrete instantiation of the single-null standings theorem at a
game with a recorded home total of 2 and a null guest total. -/
theorem standings_single_null_witness :
    (gC10.home_team_goals = some 2 ∧ gC10.guest_team_goals = none ∧
      likeMatch "L1" gC10.facr_game_id = true) ∧
    (homeRowOf "L1" gC10 = some (gC10.home_team_id, 0) ∧
      guestRowOf "L1" gC10 = none) :=
  ⟨⟨rfl, rfl, by decide⟩,
   (standings_single_null gC10 "L1" 2).1 rfl rfl (by decide)⟩

end Facr
